import Mathlib

/-!
Shallow embedding of `src/assignment-generator.py` (class `QuizGenerator`).

The Python module is a text-to-assessment generator: `extract_key_phrases`
normalizes raw text and derives sentences and key terms,
`generate_assignment_questions` builds two essay prompts,
`generate_quiz_questions` builds multiple-choice questions, and
`generate_content` orchestrates the three.

Modelling conventions:
* Python's implicitly global `random` module state is made explicit: every
  randomized function takes an `RNG` (a stream of natural numbers) and
  returns the rest of the stream alongside its result.  `random.choice`
  consumes one draw and indexes by it modulo the list length;
  `random.sample` / `random.shuffle` repeatedly draw an element and remove
  it from the pool, which realizes exactly the permutations / k-subsequences
  these Python functions can produce.
* Strings are Lean `String`s; character-level work happens on `String.data`.
* CPython's `set` iteration order (used by `list(set(key_words))`) is
  implementation-defined; it is modelled by `List.dedup` (one concrete
  duplicate-free enumeration of the same set of words).
-/

/-- Explicit random source: the stream of draws the Python `random` module
would produce.  An exhausted stream yields 0. -/
abbrev RNG := List Nat

/-- Take one draw from the random source. -/
def nextNat : RNG → Nat × RNG
  | [] => (0, [])
  | n :: r => (n, r)

/-- Python `\s` / `str.split()` / `str.strip()` whitespace (ASCII range). -/
def isSpaceChar (c : Char) : Bool :=
  c = ' ' || c = '\t' || c = '\n' || c = '\r' || c = '\x0b' || c = '\x0c'

/-- Python `\w`: alphanumeric or underscore (ASCII view). -/
def isWordChar (c : Char) : Bool :=
  c.isAlphanum || c = '_'

/-- Helper for `pyTitle`: Python `str.title()` uppercases a character that
follows a non-letter and lowercases one that follows a letter. -/
def pyTitleAux : Bool → List Char → List Char
  | _, [] => []
  | prevAlpha, c :: cs =>
      (if prevAlpha then c.toLower else c.toUpper) :: pyTitleAux c.isAlpha cs

/-- Python `str.title()`. -/
def pyTitle (s : String) : String :=
  ⟨pyTitleAux false s.data⟩

/-- Python `str.strip()`: drop whitespace from both ends. -/
def pyStrip (s : String) : String :=
  ⟨((s.data.dropWhile isSpaceChar).reverse.dropWhile isSpaceChar).reverse⟩

/-- Line 27 of the source: `re.sub(r'[^\w\s]', '', text.lower())` —
lowercase the text, then delete every character that is neither a word
character nor whitespace. -/
def normalizeText (text : String) : String :=
  ⟨(text.data.map Char.toLower).filter (fun c => isWordChar c || isSpaceChar c)⟩

/-- Python `text.split('.')`. -/
def pySplitDot (s : String) : List String :=
  (s.data.splitOn '.').map String.mk

/-- Python `text.split()` (no argument): maximal runs of non-whitespace. -/
def pyWords (s : String) : List String :=
  ((s.data.splitOnP isSpaceChar).filter (fun w => w ≠ [])).map String.mk

/-- Python `sentence[:50]`. -/
def pyTake50 (s : String) : String :=
  ⟨s.data.take 50⟩

/-- `random.choice(xs)`: one draw, used as an index.  Only ever called on
non-empty lists in the source; an (unreachable) empty list yields `""`. -/
def pyChoice (xs : List String) (g : RNG) : String × RNG :=
  let (n, g') := nextNat g
  (xs.getD (n % xs.length) "", g')

/-- `random.sample(xs, k)`: `k` draws without replacement, in draw order. -/
def pySample (xs : List String) (k : Nat) (g : RNG) : List String × RNG :=
  match k with
  | 0 => ([], g)
  | k' + 1 =>
    if xs = [] then ([], g)
    else
      let (x, g₁) := pyChoice xs g
      let (rest, g₂) := pySample (xs.erase x) k' g₁
      (x :: rest, g₂)

/-- `random.shuffle(xs)` (returning the shuffled list): a permutation of
`xs` chosen by successive random draws. -/
def pyShuffle (xs : List String) (g : RNG) : List String × RNG :=
  pySample xs xs.length g

/-- `self.question_starters` (lines 8-11). -/
def question_starters : List String :=
  ["What is", "How does", "Why is", "When did", "Where does",
   "Which", "Who was", "What are the main", "How can", "What would happen if"]

/-- `self.essay_prompts` (lines 13-22). -/
def essay_prompts : List String :=
  ["Analyze the main concepts discussed in the text and explain their significance.",
   "Compare and contrast the key ideas presented and provide your own perspective.",
   "Discuss the implications of the information provided and its real-world applications.",
   "Evaluate the arguments presented and provide supporting evidence for your viewpoint.",
   "Examine the relationship between the different concepts mentioned in the text.",
   "Critically assess the topic and propose potential solutions or improvements.",
   "Explore the historical context and evolution of the subject matter.",
   "Investigate the causes and effects of the phenomena described in the text."]

/-- `stop_words` (lines 36-41); a Python set used only for membership. -/
def stop_words : List String :=
  ["the", "a", "an", "and", "or", "but", "in", "on", "at", "to", "for",
   "of", "with", "by", "is", "are", "was", "were", "be", "been", "being",
   "have", "has", "had", "do", "does", "did", "will", "would", "could",
   "should", "may", "might", "must", "can", "this", "that", "these", "those"]

/-- `extract_key_phrases` (lines 24-49). -/
def extract_key_phrases (text : String) : List String × List String :=
  let t := normalizeText text
  let sentences := ((pySplitDot t).map pyStrip).filter (fun s => 10 < s.length)
  let words := pyWords t
  let key_words := words.filter (fun w => 4 < w.length && !(stop_words.contains w))
  let unique_words := key_words.dedup.take 10
  (sentences, unique_words)

/-- The suffix appended to an essay prompt when key words exist (line 62). -/
def focusSuffix (k : String) : String :=
  " Focus particularly on the concept of \x27" ++ pyTitle k ++
    "\x27 mentioned in the material."

/-- The `for i, prompt in enumerate(selected_prompts)` loop of
`generate_assignment_questions` (lines 58-66), with the loop index and the
random state made explicit. -/
def assignLoop (key_words : List String) : Nat → List String → RNG → List String × RNG
  | _, [], g => ([], g)
  | i, p :: ps, g =>
      let (customized_prompt, g₁) :=
        if key_words ≠ [] then
          let (key_concept, g') := pyChoice key_words g
          (p ++ focusSuffix key_concept, g')
        else (p, g)
      let (rest, g₂) := assignLoop key_words (i + 1) ps g₁
      (("Assignment " ++ toString (i + 1) ++ ": " ++ customized_prompt) :: rest, g₂)

/-- `generate_assignment_questions` (lines 51-68).  The `text` parameter is
kept because the source declares it (it is never read). -/
def generate_assignment_questions (text : String) (key_words : List String)
    (g : RNG) : List String × RNG :=
  let (selected_prompts, g₁) :=
    pySample essay_prompts (min 2 essay_prompts.length) g
  assignLoop key_words 0 selected_prompts g₁

/-- A generated multiple-choice question (the dicts of lines 77-82 etc.). -/
structure Question where
  question : String
  options : List String
  correct : Nat
  explanation : String
deriving DecidableEq

/-- The degenerate-input fallback question (lines 76-83). -/
def fallbackQuestion : Question :=
  { question := "Based on the provided text, what is the main topic discussed?"
    options := ["Option A", "Option B", "Option C", "Option D"]
    correct := 0
    explanation := "This is a general comprehension question." }

/-- The per-index fallback question (lines 116-126), for loop index `i`. -/
def posFallback (i : Nat) : Question :=
  { question := "Question " ++ toString (i + 1) ++
      ": What can be inferred from the given text?"
    options := ["The text provides comprehensive information",
                "The text is completely unrelated to the topic",
                "The text contains no useful information",
                "The text is written in a foreign language"]
    correct := 0
    explanation := "This question tests reading comprehension." }

/-- The fixed distractor strings (lines 98-102). -/
def distractors : List String :=
  ["It refers to a completely different concept",
   "It is not mentioned in the provided text",
   "It only appears in the conclusion"]

/-- The correct option synthesized on line 96. -/
def correctOption (key_word sentence : String) : String :=
  pyTitle key_word ++ " is related to " ++ pyTake50 sentence ++ "..."

/-- One iteration of the question loop of `generate_quiz_questions`
(lines 86-126), at loop index `i`. -/
def quizStep (sentences key_words : List String) (i : Nat) (g : RNG) :
    Question × RNG :=
  if i < sentences.length ∧ key_words ≠ [] then
    let sentence := sentences.getD i ""
    let (key_word, g₁) := pyChoice key_words g
    let (question_starter, g₂) := pyChoice question_starters g₁
    let question := question_starter ++ " " ++ pyTitle key_word ++
      " mentioned in the text?"
    let correct_option := correctOption key_word sentence
    let (options, g₃) := pyShuffle (correct_option :: distractors) g₂
    let correct_index := options.indexOf correct_option
    ({ question := question
       options := options
       correct := correct_index
       explanation := "The correct answer relates to the context provided in the text." },
     g₃)
  else (posFallback i, g)

/-- The `for i in range(3)` loop of `generate_quiz_questions`, threading the
random state. -/
def quizLoop (sentences key_words : List String) :
    List Nat → RNG → List Question × RNG
  | [], g => ([], g)
  | i :: is, g =>
      let (q, g₁) := quizStep sentences key_words i g
      let (qs, g₂) := quizLoop sentences key_words is g₁
      (q :: qs, g₂)

/-- `generate_quiz_questions` (lines 70-128). -/
def generate_quiz_questions (sentences key_words : List String) (g : RNG) :
    List Question × RNG :=
  if sentences = [] ∨ key_words = [] then ([fallbackQuestion], g)
  else quizLoop sentences key_words [0, 1, 2] g

/-- `generate_content` (lines 130-139). -/
def generate_content (input_text : String) (g : RNG) :
    (List String × List Question) × RNG :=
  if pyStrip input_text = "" then (([], []), g)
  else
    let (sentences, key_words) := extract_key_phrases input_text
    let (assignments, g₁) := generate_assignment_questions input_text key_words g
    let (quiz_questions, g₂) := generate_quiz_questions sentences key_words g₁
    ((assignments, quiz_questions), g₂)

/-- The fixed sample paragraph of `main` (lines 178-185), byte for byte. -/
def sample_text : String :=
  "\n        Photosynthesis is the process by which plants convert sunlight, carbon dioxide, and water into glucose and oxygen. \n        This process occurs in the chloroplasts of plant cells and involves two main stages: the light reactions and the Calvin cycle. \n        During light reactions, chlorophyll absorbs sunlight and converts it into chemical energy in the form of ATP and NADPH. \n        The Calvin cycle uses this energy to convert carbon dioxide into glucose. Photosynthesis is essential for life on Earth \n        as it produces oxygen and serves as the foundation of most food chains. Factors affecting photosynthesis include light intensity, \n        carbon dioxide concentration, and temperature. Understanding photosynthesis is crucial for agriculture and environmental science.\n        "

/-- The per-question invariant of the quiz synthesizer: four options, a
correct index inside them, and either a normal-branch question — whose
option at the correct index is the synthesized correct option (containing
the chosen key term title-cased as a prefix) and whose options are a
permutation of that option plus the three fixed distractors — or one of the
two fixed fallback shapes (both of which put the correct option first). -/
def questionOk (sentences key_words : List String) (q : Question) : Prop :=
  q.options.length = 4 ∧ q.correct < 4 ∧
  ((∃ kw ∈ key_words, ∃ s ∈ sentences,
      q.options.getD q.correct "" = correctOption kw s ∧
      (pyTitle kw).data <+: (q.options.getD q.correct "").data ∧
      q.options.Perm (correctOption kw s :: distractors)) ∨
    (∃ i, q = posFallback i) ∨ q = fallbackQuestion)

/-! ### Helper lemmas about the random primitives -/

theorem pyChoice_fst (xs : List String) (g : RNG) :
    (pyChoice xs g).1 = xs.getD ((nextNat g).1 % xs.length) "" := by
  rcases h : nextNat g with ⟨n, g'⟩
  simp [pyChoice, h]

theorem pyChoice_mem (xs : List String) (g : RNG) (h : xs ≠ []) :
    (pyChoice xs g).1 ∈ xs := by
  have hl : 0 < xs.length := List.length_pos.2 h
  have hlt : (nextNat g).1 % xs.length < xs.length := Nat.mod_lt _ hl
  rw [pyChoice_fst, List.getD_eq_getElem xs "" hlt]
  exact List.getElem_mem hlt

theorem pySample_zero (xs : List String) (g : RNG) : pySample xs 0 g = ([], g) := rfl

theorem pySample_succ (xs : List String) (k : Nat) (g : RNG) (h : xs ≠ []) :
    pySample xs (k + 1) g =
      ((pyChoice xs g).1 ::
          (pySample (xs.erase (pyChoice xs g).1) k (pyChoice xs g).2).1,
        (pySample (xs.erase (pyChoice xs g).1) k (pyChoice xs g).2).2) := by
  rw [pySample, if_neg h]

theorem pySample_perm :
    ∀ (n : Nat) (xs : List String) (g : RNG), xs.length = n →
      (pySample xs n g).1.Perm xs := by
  intro n
  induction n using Nat.strong_induction_on with
  | _ n IH =>
    intro xs g hl
    match n, xs with
    | 0, xs =>
      rw [List.length_eq_zero.1 hl, pySample_zero]
    | n' + 1, [] =>
      simp at hl
    | n' + 1, x₀ :: xs' =>
      have hne : (x₀ :: xs') ≠ [] := by simp
      rw [pySample_succ _ _ _ hne]
      have hx : (pyChoice (x₀ :: xs') g).1 ∈ x₀ :: xs' := pyChoice_mem _ _ hne
      have herase : ((x₀ :: xs').erase (pyChoice (x₀ :: xs') g).1).length = n' := by
        rw [List.length_erase_of_mem hx, hl]
        omega
      have hrec := IH n' (Nat.lt_succ_self n') _ (pyChoice (x₀ :: xs') g).2 herase
      exact (hrec.cons _).trans (List.perm_cons_erase hx).symm

theorem pyShuffle_perm (xs : List String) (g : RNG) :
    (pyShuffle xs g).1.Perm xs :=
  pySample_perm xs.length xs g rfl

theorem pySample_two (l : List String) (g : RNG) (hn : l.Nodup)
    (h2 : 2 ≤ l.length) :
    ∃ p₁ p₂ g', p₁ ∈ l ∧ p₂ ∈ l ∧ p₁ ≠ p₂ ∧ pySample l 2 g = ([p₁, p₂], g') := by
  have hne : l ≠ [] := by
    intro h
    rw [h] at h2
    simp at h2
  have hxm : (pyChoice l g).1 ∈ l := pyChoice_mem l g hne
  have hel : (l.erase (pyChoice l g).1).length = l.length - 1 :=
    List.length_erase_of_mem hxm
  have hene : l.erase (pyChoice l g).1 ≠ [] := by
    intro h
    rw [h] at hel
    simp at hel
    omega
  have hym : (pyChoice (l.erase (pyChoice l g).1) (pyChoice l g).2).1 ∈
      l.erase (pyChoice l g).1 := pyChoice_mem _ _ hene
  refine ⟨(pyChoice l g).1,
    (pyChoice (l.erase (pyChoice l g).1) (pyChoice l g).2).1,
    (pyChoice (l.erase (pyChoice l g).1) (pyChoice l g).2).2,
    hxm, List.mem_of_mem_erase hym, ?_, ?_⟩
  · exact fun h => ((List.Nodup.mem_erase_iff hn).1 hym).1 h.symm
  · rw [pySample_succ _ _ _ hne, pySample_succ _ _ _ hene, pySample_zero]

/-! ### Helper lemmas about the loops and the extractor -/

theorem quizLoop_cons (sentences key_words : List String) (i : Nat)
    (is : List Nat) (g : RNG) :
    quizLoop sentences key_words (i :: is) g =
      ((quizStep sentences key_words i g).1 ::
          (quizLoop sentences key_words is (quizStep sentences key_words i g).2).1,
        (quizLoop sentences key_words is (quizStep sentences key_words i g).2).2) :=
  rfl

theorem quizLoop_length (sentences key_words : List String) (is : List Nat)
    (g : RNG) :
    (quizLoop sentences key_words is g).1.length = is.length := by
  induction is generalizing g with
  | nil => rfl
  | cons i is ih =>
    rw [quizLoop_cons]
    simp [ih]

theorem quizStep_not_taken (sentences key_words : List String) (i : Nat)
    (g : RNG) (h : ¬(i < sentences.length ∧ key_words ≠ [])) :
    quizStep sentences key_words i g = (posFallback i, g) := by
  rw [quizStep, if_neg h]

theorem extract_fst (t : String) :
    (extract_key_phrases t).1 =
      ((pySplitDot (normalizeText t)).map pyStrip).filter (fun s => 10 < s.length) :=
  rfl

theorem extract_snd (t : String) :
    (extract_key_phrases t).2 =
      ((pyWords (normalizeText t)).filter
          (fun w => 4 < w.length && !(stop_words.contains w))).dedup.take 10 :=
  rfl

theorem normalize_no_dot (t : String) :
    ∀ c ∈ (normalizeText t).data, ¬((c == '.') = true) := by
  intro c hc hdot
  have hc2 : c ∈ (t.data.map Char.toLower).filter
      (fun c => isWordChar c || isSpaceChar c) := hc
  have hpred : (isWordChar c || isSpaceChar c) = true := (List.mem_filter.1 hc2).2
  have hcd : c = '.' := by simpa using hdot
  subst hcd
  exact absurd hpred (by decide)

theorem splitDot_normalize (t : String) :
    pySplitDot (normalizeText t) = [normalizeText t] := by
  have h1 : (normalizeText t).data.splitOn '.' =
      (normalizeText t).data.splitOnP (· == '.') := rfl
  have h2 : (normalizeText t).data.splitOnP (· == '.') = [(normalizeText t).data] :=
    List.splitOnP_eq_single _ _ (normalize_no_dot t)
  rw [pySplitDot, h1, h2]
  rfl

theorem extract_sentences_le_one (t : String) :
    (extract_key_phrases t).1.length ≤ 1 := by
  rw [extract_fst, splitDot_normalize]
  exact le_trans (List.length_filter_le _ _) (by simp)

/-! ### Claim theorems -/

/-- C2: for every input string whose Python-strip is empty, `generate_content`
returns the pair of two empty lists, leaves the random source untouched (so
neither the extractor nor a synthesizer is invoked), and raises no error. -/
theorem generate_content_blank (input_text : String) (g : RNG)
    (h : pyStrip input_text = "") :
    generate_content input_text g = (([], []), g) := by
  simp [generate_content, h]

/-- Witness for `generate_content_blank` at the whitespace-only input. -/
theorem generate_content_blank_witness :
    generate_content "  \n  " [5, 7] = (([], []), [5, 7]) :=
  generate_content_blank "  \n  " [5, 7] (by decide)

/-- C3: `generate_quiz_questions` returns exactly one question (the fixed
fallback with four generic options, correct index 0 and a generic
explanation) when the sentences or the key-terms list is empty, and exactly
three questions otherwise. -/
theorem quiz_question_count (sentences key_words : List String) (g : RNG) :
    ((sentences = [] ∨ key_words = []) →
        (generate_quiz_questions sentences key_words g).1 = [fallbackQuestion]) ∧
    (sentences ≠ [] → key_words ≠ [] →
        (generate_quiz_questions sentences key_words g).1.length = 3) ∧
    fallbackQuestion.options.length = 4 ∧ fallbackQuestion.correct = 0 := by
  refine ⟨?_, ?_, rfl, rfl⟩
  · intro h
    rw [generate_quiz_questions, if_pos h]
  · intro hs hk
    have hor : ¬(sentences = [] ∨ key_words = []) := by tauto
    rw [generate_quiz_questions, if_neg hor, quizLoop_length]
    rfl

/-- Witness for `quiz_question_count`: one degenerate call and one normal
call. -/
theorem quiz_question_count_witness :
    (generate_quiz_questions [] ["zebra"] [3, 1]).1 = [fallbackQuestion] ∧
    (generate_quiz_questions ["abcdefghijkl"] ["zebra"] [3, 1]).1.length = 3 :=
  ⟨(quiz_question_count [] ["zebra"] [3, 1]).1 (Or.inl rfl),
   (quiz_question_count ["abcdefghijkl"] ["zebra"] [3, 1]).2.1
     (by decide) (by decide)⟩

/-- C8: `generate_content` is deterministic given its random source — two
runs on the same input text with the same random-generator state return
identical outputs (the embedding threads the random state explicitly, and
the code reads no other mutable state). -/
theorem generate_content_deterministic (t₁ t₂ : String) (g₁ g₂ : RNG)
    (ht : t₁ = t₂) (hg : g₁ = g₂) :
    generate_content t₁ g₁ = generate_content t₂ g₂ := by
  rw [ht, hg]

/-- Witness for `generate_content_deterministic`. -/
theorem generate_content_deterministic_witness :
    generate_content "photosynthesis makes glucose" [4, 2, 9] =
      generate_content "photosynthesis makes glucose" [4, 2, 9] :=
  generate_content_deterministic _ _ _ _ rfl rfl

/-- C10: `generate_assignment_questions` never reads its `text` argument —
two calls with different texts but equal key-word lists and equal
random-generator state return identical assignment lists. -/
theorem assignments_independent_of_text (t₁ t₂ : String)
    (key_words : List String) (g : RNG) :
    generate_assignment_questions t₁ key_words g =
      generate_assignment_questions t₂ key_words g :=
  rfl

/-- C9: for every input the sentences list of `extract_key_phrases` has at
most one element (the normalization deletes every period before the split
on `'.'`), so on the normal quiz path the questions at indices 1 and 2 are
always the positional fallback questions with correct index 0. -/
theorem single_sentence_and_fallback_tail (t : String) (g : RNG) :
    (extract_key_phrases t).1.length ≤ 1 ∧
    ((extract_key_phrases t).1 ≠ [] → (extract_key_phrases t).2 ≠ [] →
      ((generate_quiz_questions (extract_key_phrases t).1
            (extract_key_phrases t).2 g).1.getD 1 fallbackQuestion =
          posFallback 1 ∧
        (generate_quiz_questions (extract_key_phrases t).1
            (extract_key_phrases t).2 g).1.getD 2 fallbackQuestion =
          posFallback 2 ∧
        (posFallback 1).correct = 0 ∧ (posFallback 2).correct = 0)) := by
  refine ⟨extract_sentences_le_one t, fun hs hk => ?_⟩
  have hle := extract_sentences_le_one t
  have hor : ¬((extract_key_phrases t).1 = [] ∨ (extract_key_phrases t).2 = []) := by
    tauto
  rw [generate_quiz_questions, if_neg hor, quizLoop_cons, quizLoop_cons,
    quizLoop_cons]
  rw [quizStep_not_taken _ _ 1 _ (by intro h; omega),
    quizStep_not_taken _ _ 2 _ (by intro h; omega)]
  exact ⟨rfl, rfl, rfl, rfl⟩

/-- Witness for `single_sentence_and_fallback_tail` at a three-sentence
input with qualifying key words. -/
theorem single_sentence_and_fallback_tail_witness :
    (extract_key_phrases "Zebra crossings. Hippo swims. Rhino runs fast.").1.length ≤ 1 ∧
    ((generate_quiz_questions
          (extract_key_phrases "Zebra crossings. Hippo swims. Rhino runs fast.").1
          (extract_key_phrases "Zebra crossings. Hippo swims. Rhino runs fast.").2
          [2, 4, 6, 8, 1, 3]).1.getD 1 fallbackQuestion = posFallback 1 ∧
      (generate_quiz_questions
          (extract_key_phrases "Zebra crossings. Hippo swims. Rhino runs fast.").1
          (extract_key_phrases "Zebra crossings. Hippo swims. Rhino runs fast.").2
          [2, 4, 6, 8, 1, 3]).1.getD 2 fallbackQuestion = posFallback 2 ∧
      (posFallback 1).correct = 0 ∧ (posFallback 2).correct = 0) :=
  ⟨(single_sentence_and_fallback_tail
      "Zebra crossings. Hippo swims. Rhino runs fast." [2, 4, 6, 8, 1, 3]).1,
   (single_sentence_and_fallback_tail
      "Zebra crossings. Hippo swims. Rhino runs fast." [2, 4, 6, 8, 1, 3]).2
     (by decide) (by decide)⟩

set_option maxRecDepth 100000 in
/-- C1 evidence: on the fixed photosynthesis sample paragraph the extractor
returns exactly ONE sentence (the whole normalized text) — not the five or
more sentences the spec scenario promises — because the normalization strips
every period before the split on `'.'`.  Consequently the quiz synthesizer
still produces three questions, but the questions at indices 1 and 2 are the
generic positional fallbacks, whose correct options contain no title-cased
key term. -/
theorem sample_text_single_sentence :
    (extract_key_phrases sample_text).1.length = 1 ∧
    (generate_quiz_questions (extract_key_phrases sample_text).1
        (extract_key_phrases sample_text).2 [0, 0, 0, 0, 0, 0, 0]).1.length = 3 ∧
    (generate_quiz_questions (extract_key_phrases sample_text).1
        (extract_key_phrases sample_text).2 [0, 0, 0, 0, 0, 0, 0]).1.getD 1
        fallbackQuestion = posFallback 1 ∧
    (generate_quiz_questions (extract_key_phrases sample_text).1
        (extract_key_phrases sample_text).2 [0, 0, 0, 0, 0, 0, 0]).1.getD 2
        fallbackQuestion = posFallback 2 := by
  refine ⟨?_, ?_, ?_, ?_⟩ <;> decide

/-! ### Helper lemmas for the assignment synthesizer -/

theorem str_append_ne_empty (a b : String) (h : a ≠ "") : a ++ b ≠ "" := by
  intro hab
  apply h
  have hd := congrArg String.data hab
  rw [String.data_append] at hd
  exact String.ext (List.append_eq_nil.1 hd).1

theorem str_prefix_append (a b : String) : a.data <+: (a ++ b).data := by
  rw [String.data_append]
  exact List.prefix_append _ _

theorem assignLoop_nil (kw : List String) (i : Nat) (g : RNG) :
    assignLoop kw i [] g = ([], g) := rfl

theorem assignLoop_cons_empty (i : Nat) (p : String) (ps : List String) (g : RNG) :
    assignLoop [] i (p :: ps) g =
      (("Assignment " ++ toString (i + 1) ++ ": " ++ p) ::
          (assignLoop [] (i + 1) ps g).1,
        (assignLoop [] (i + 1) ps g).2) := by
  simp [assignLoop]

theorem assignLoop_cons_key (kw : List String) (hk : kw ≠ []) (i : Nat)
    (p : String) (ps : List String) (g : RNG) :
    assignLoop kw i (p :: ps) g =
      (("Assignment " ++ toString (i + 1) ++ ": " ++
            (p ++ focusSuffix (pyChoice kw g).1)) ::
          (assignLoop kw (i + 1) ps (pyChoice kw g).2).1,
        (assignLoop kw (i + 1) ps (pyChoice kw g).2).2) := by
  rw [assignLoop, if_pos hk]

theorem assignLoop_pair_empty (p₁ p₂ : String) (g : RNG) :
    (assignLoop [] 0 [p₁, p₂] g).1 =
      ["Assignment 1: " ++ p₁, "Assignment 2: " ++ p₂] := by
  rw [assignLoop_cons_empty, assignLoop_cons_empty, assignLoop_nil]
  have h1 : "Assignment " ++ toString (0 + 1) ++ ": " = "Assignment 1: " := by decide
  have h2 : "Assignment " ++ toString (0 + 1 + 1) ++ ": " = "Assignment 2: " := by
    decide
  rw [h1, h2]

theorem assignLoop_pair_key (kw : List String) (hk : kw ≠ []) (p₁ p₂ : String)
    (g : RNG) :
    (assignLoop kw 0 [p₁, p₂] g).1 =
      ["Assignment 1: " ++ (p₁ ++ focusSuffix (pyChoice kw g).1),
       "Assignment 2: " ++ (p₂ ++ focusSuffix (pyChoice kw (pyChoice kw g).2).1)] := by
  rw [assignLoop_cons_key kw hk, assignLoop_cons_key kw hk, assignLoop_nil]
  have h1 : "Assignment " ++ toString (0 + 1) ++ ": " = "Assignment 1: " := by decide
  have h2 : "Assignment " ++ toString (0 + 1 + 1) ++ ": " = "Assignment 2: " := by
    decide
  rw [h1, h2]

/-- C4: for every input, `generate_assignment_questions` returns exactly two
prompts; each is a non-empty string starting with "Assignment i: " for
i = 1, 2; the two base prompts are distinct members of the fixed 8-entry
catalog; and the key-term suffix is appended exactly when the key-terms list
is non-empty. -/
theorem assignment_output_shape (text : String) (key_words : List String)
    (g : RNG) :
    ∃ p₁ p₂ s₁ s₂,
      p₁ ∈ essay_prompts ∧ p₂ ∈ essay_prompts ∧ p₁ ≠ p₂ ∧
      (generate_assignment_questions text key_words g).1 =
        ["Assignment 1: " ++ (p₁ ++ s₁), "Assignment 2: " ++ (p₂ ++ s₂)] ∧
      (generate_assignment_questions text key_words g).1.length = 2 ∧
      "Assignment 1: " ++ (p₁ ++ s₁) ≠ "" ∧
      "Assignment 2: " ++ (p₂ ++ s₂) ≠ "" ∧
      ("Assignment 1: ").data <+: ("Assignment 1: " ++ (p₁ ++ s₁)).data ∧
      ("Assignment 2: ").data <+: ("Assignment 2: " ++ (p₂ ++ s₂)).data ∧
      ((key_words = [] ∧ s₁ = "" ∧ s₂ = "") ∨
        (key_words ≠ [] ∧ (∃ k ∈ key_words, s₁ = focusSuffix k) ∧
          (∃ k ∈ key_words, s₂ = focusSuffix k))) := by
  obtain ⟨p₁, p₂, g', hp₁, hp₂, hne, hsamp⟩ :=
    pySample_two essay_prompts g (by decide) (by decide)
  have hgen : (generate_assignment_questions text key_words g).1 =
      (assignLoop key_words 0 [p₁, p₂] g').1 := by
    have hm : min 2 essay_prompts.length = 2 := by decide
    simp only [generate_assignment_questions, hm, hsamp]
  rcases eq_or_ne key_words [] with hkw | hkw
  · subst hkw
    refine ⟨p₁, p₂, "", "", hp₁, hp₂, hne, ?_, ?_, ?_, ?_, ?_, ?_,
      Or.inl ⟨rfl, rfl, rfl⟩⟩
    · rw [hgen, assignLoop_pair_empty, String.append_empty, String.append_empty]
    · rw [hgen, assignLoop_pair_empty]
      rfl
    · exact str_append_ne_empty _ _ (by decide)
    · exact str_append_ne_empty _ _ (by decide)
    · exact str_prefix_append _ _
    · exact str_prefix_append _ _
  · refine ⟨p₁, p₂, focusSuffix (pyChoice key_words g').1,
      focusSuffix (pyChoice key_words (pyChoice key_words g').2).1,
      hp₁, hp₂, hne, ?_, ?_, ?_, ?_, ?_, ?_,
      Or.inr ⟨hkw, ⟨_, pyChoice_mem _ _ hkw, rfl⟩,
        ⟨_, pyChoice_mem _ _ hkw, rfl⟩⟩⟩
    · rw [hgen, assignLoop_pair_key key_words hkw]
    · rw [hgen, assignLoop_pair_key key_words hkw]
      rfl
    · exact str_append_ne_empty _ _ (by decide)
    · exact str_append_ne_empty _ _ (by decide)
    · exact str_prefix_append _ _
    · exact str_prefix_append _ _

/-! ### Helper lemmas for the quiz synthesizer -/

theorem quizStep_taken (sentences key_words : List String) (i : Nat) (g : RNG)
    (h : i < sentences.length ∧ key_words ≠ []) :
    quizStep sentences key_words i g =
      ({ question := (pyChoice question_starters (pyChoice key_words g).2).1 ++
            " " ++ pyTitle (pyChoice key_words g).1 ++ " mentioned in the text?"
         options := (pyShuffle (correctOption (pyChoice key_words g).1
              (sentences.getD i "") :: distractors)
              (pyChoice question_starters (pyChoice key_words g).2).2).1
         correct := (pyShuffle (correctOption (pyChoice key_words g).1
              (sentences.getD i "") :: distractors)
              (pyChoice question_starters (pyChoice key_words g).2).2).1.indexOf
            (correctOption (pyChoice key_words g).1 (sentences.getD i ""))
         explanation := "The correct answer relates to the context provided in the text." },
        (pyShuffle (correctOption (pyChoice key_words g).1
            (sentences.getD i "") :: distractors)
            (pyChoice question_starters (pyChoice key_words g).2).2).2) := by
  rw [quizStep, if_pos h]

theorem shuffled_ok (corr : String) (g : RNG) :
    (pyShuffle (corr :: distractors) g).1.length = 4 ∧
    (pyShuffle (corr :: distractors) g).1.indexOf corr < 4 ∧
    (pyShuffle (corr :: distractors) g).1.getD
        ((pyShuffle (corr :: distractors) g).1.indexOf corr) "" = corr ∧
    (pyShuffle (corr :: distractors) g).1.Perm (corr :: distractors) := by
  have hperm : (pyShuffle (corr :: distractors) g).1.Perm (corr :: distractors) :=
    pyShuffle_perm _ _
  have hmem : corr ∈ (pyShuffle (corr :: distractors) g).1 :=
    hperm.mem_iff.2 (List.mem_cons_self _ _)
  have hlen : (pyShuffle (corr :: distractors) g).1.length = 4 := by
    rw [hperm.length_eq]
    rfl
  have hidx : (pyShuffle (corr :: distractors) g).1.indexOf corr <
      (pyShuffle (corr :: distractors) g).1.length :=
    List.indexOf_lt_length.2 hmem
  refine ⟨hlen, hlen ▸ hidx, ?_, hperm⟩
  rw [List.getD_eq_getElem _ _ hidx]
  exact List.getElem_indexOf hidx

theorem correctOption_title_isPre (kw s : String) :
    (pyTitle kw).data <+: (correctOption kw s).data :=
  ((str_prefix_append _ _).trans (str_prefix_append _ _)).trans
    (str_prefix_append _ _)

theorem quizStep_ok (sentences key_words : List String) (i : Nat) (g : RNG) :
    questionOk sentences key_words (quizStep sentences key_words i g).1 := by
  by_cases h : i < sentences.length ∧ key_words ≠ []
  · obtain ⟨hi, hk⟩ := h
    rw [quizStep_taken _ _ _ _ ⟨hi, hk⟩]
    obtain ⟨h1, h2, h3, h4⟩ :=
      shuffled_ok (correctOption (pyChoice key_words g).1 (sentences.getD i ""))
        (pyChoice question_starters (pyChoice key_words g).2).2
    refine ⟨h1, h2, Or.inl ⟨(pyChoice key_words g).1, pyChoice_mem _ _ hk,
      sentences.getD i "", ?_, h3, ?_, h4⟩⟩
    · rw [List.getD_eq_getElem _ _ hi]
      exact List.getElem_mem hi
    · rw [h3]
      exact correctOption_title_isPre _ _
  · rw [quizStep_not_taken _ _ _ _ h]
    refine ⟨rfl, ?_, Or.inr (Or.inl ⟨i, rfl⟩)⟩
    show (0 : Nat) < 4
    decide

theorem quizLoop_ok (sentences key_words : List String) (is : List Nat)
    (g : RNG) :
    ∀ q ∈ (quizLoop sentences key_words is g).1,
      questionOk sentences key_words q := by
  induction is generalizing g with
  | nil =>
    intro q hq
    simp [quizLoop] at hq
  | cons i is ih =>
    intro q hq
    rw [quizLoop_cons] at hq
    rcases List.mem_cons.1 hq with hq | hq
    · rw [hq]
      exact quizStep_ok sentences key_words i g
    · exact ih _ q hq

/-- C5: every question returned by `generate_quiz_questions` has exactly four
options and a correct index in [0, 3]; the option at the correct index is the
synthesized correct option; and in the normal-case branch that option
contains the selected key term title-cased while the other three options are
the fixed distractor strings in randomized positions (the remaining
questions are one of the two fixed fallback shapes, whose correct option
sits at index 0). -/
theorem quiz_question_invariant (sentences key_words : List String) (g : RNG) :
    ∀ q ∈ (generate_quiz_questions sentences key_words g).1,
      questionOk sentences key_words q := by
  intro q hq
  by_cases h : sentences = [] ∨ key_words = []
  · rw [generate_quiz_questions, if_pos h] at hq
    simp at hq
    rw [hq]
    exact ⟨rfl, by decide, Or.inr (Or.inr rfl)⟩
  · rw [generate_quiz_questions, if_neg h] at hq
    exact quizLoop_ok _ _ _ _ q hq

/-- Witness for `quiz_question_invariant` at a concrete normal-branch call. -/
theorem quiz_question_invariant_witness :
    questionOk ["abcdefghijkl"] ["zebra"]
      ((generate_quiz_questions ["abcdefghijkl"] ["zebra"]
          [0, 0, 0, 0, 0, 0, 0]).1.getD 0 fallbackQuestion) :=
  quiz_question_invariant ["abcdefghijkl"] ["zebra"] [0, 0, 0, 0, 0, 0, 0]
    _ (by decide)

/-- C6: every key term returned by `extract_key_phrases` has length greater
than 4 and is not a stop word; the returned list has no duplicates, at most
10 entries, and never more entries than there are distinct qualifying words
in the input. -/
theorem key_terms_bounds (t : String) :
    (∀ w ∈ (extract_key_phrases t).2, 4 < w.length ∧ w ∉ stop_words) ∧
    (extract_key_phrases t).2.Nodup ∧
    (extract_key_phrases t).2.length ≤ 10 ∧
    (extract_key_phrases t).2.length ≤
      ((pyWords (normalizeText t)).filter
          (fun w => 4 < w.length && !(stop_words.contains w))).dedup.length := by
  rw [extract_snd]
  refine ⟨?_, ?_, ?_, ?_⟩
  · intro w hw
    have hw' := List.mem_dedup.1 (List.mem_of_mem_take hw)
    have hcond := (List.mem_filter.1 hw').2
    simp only [Bool.and_eq_true, Bool.not_eq_true', decide_eq_true_eq] at hcond
    exact ⟨hcond.1, by simpa using hcond.2⟩
  · exact (List.take_sublist _ _).nodup (List.nodup_dedup _)
  · exact List.length_take_le _ _
  · exact (List.take_sublist _ _).length_le

/-- Witness for `key_terms_bounds`: its per-element part applied to the key
term "hello" of a concrete input, plus the three closed parts. -/
theorem key_terms_bounds_witness :
    (4 < ("hello" : String).length ∧ ("hello" : String) ∉ stop_words) ∧
    (extract_key_phrases "hello world hello").2.Nodup ∧
    (extract_key_phrases "hello world hello").2.length ≤ 10 ∧
    (extract_key_phrases "hello world hello").2.length ≤
      ((pyWords (normalizeText "hello world hello")).filter
          (fun w => 4 < w.length && !(stop_words.contains w))).dedup.length :=
  ⟨(key_terms_bounds "hello world hello").1 "hello" (by decide),
   (key_terms_bounds "hello world hello").2.1,
   (key_terms_bounds "hello world hello").2.2.1,
   (key_terms_bounds "hello world hello").2.2.2⟩

/-- C7: every sentence returned by `extract_key_phrases` has length greater
than 10 and is the whitespace-stripped form of a fragment of the normalized
(lowercased, punctuation-stripped) text split on periods; a fragment whose
stripped length is at most 10 never contributes a sentence. -/
theorem sentence_filter_sound (t : String) :
    ∀ s ∈ (extract_key_phrases t).1,
      10 < s.length ∧
      ∃ f ∈ pySplitDot (normalizeText t), s = pyStrip f ∧ 10 < (pyStrip f).length := by
  intro s hs
  rw [extract_fst] at hs
  obtain ⟨hmem, hlen⟩ := List.mem_filter.1 hs
  obtain ⟨f, hf, rfl⟩ := List.mem_map.1 hmem
  have hl : 10 < (pyStrip f).length := by simpa using hlen
  exact ⟨hl, f, hf, rfl, hl⟩

/-- Witness for `sentence_filter_sound` at a concrete input and its single
sentence. -/
theorem sentence_filter_sound_witness :
    10 < ((extract_key_phrases "hello world stuff").1.getD 0 "").length ∧
    ∃ f ∈ pySplitDot (normalizeText "hello world stuff"),
      (extract_key_phrases "hello world stuff").1.getD 0 "" = pyStrip f ∧
      10 < (pyStrip f).length :=
  sentence_filter_sound "hello world stuff" _ (by decide)
